import Mathlib

/-!
# Verification of `decode.py` (PDF417 barcode extraction CLI)

Shallow embedding of the orchestration script `decode.py`.  The script is a
sequencing layer over three external libraries (the PDF417 decoder, PyMuPDF
and zlib); we model those collaborators as oracle functions collected in an
`Env` record, and model the script's observable behaviour (console prints,
file writes, closing the PDF document handle, raising exceptions, and
`sys.exit`) with a small effect monad `Proc`.

Modelling decisions, faithful to Python semantics:
* `sys.exit n` raises `SystemExit`, which derives from `BaseException` and is
  NOT caught by `except Exception`.  We therefore give `Proc` a distinct
  terminal outcome `exited n` that `tryE` (our `except Exception`) never
  intercepts, while modelled library exceptions (`ValueError`, `zlib.error`,
  `OSError`, generic `Exception`) are `exc` outcomes that it does intercept.
* A `fileWrite` event records a completed successful write of all bytes; a
  failing open/write produces no `fileWrite` event, only the logged error.
* `traceback.print_exc()` is modelled as printing the line `"traceback"`.
* Python booleans print as `True` / `False` (`pyBool`).
* `str.lower` is modelled on ASCII letters (`asciiLower`), which is exact for
  the `.pdf` suffix test the script performs.
-/

/-- Bytes are modelled as lists of naturals (byte values). -/
abbrev Bytes := List Nat

/-- Opaque handle for a PIL image produced by `Image.open`/`Image.frombytes`. -/
abbrev Image := Nat

/-- Opaque decoded-segment record (`decoder.barcodes_info` element). -/
abbrev Info := Nat

/-- Modelled Python exceptions.  All of these derive from `Exception` in
Python, so a bare `except Exception` catches every one of them;
`except ValueError` / `except zlib.error` catch only their own kind. -/
inductive Exc where
  | valueError : String → Exc
  | zlibError : String → Exc
  | osError : String → Exc
  | excOther : String → Exc
deriving DecidableEq, Repr

/-- `str(e)` for a modelled exception: its message. -/
def excMsg : Exc → String
  | .valueError m => m
  | .zlibError m => m
  | .osError m => m
  | .excOther m => m

/-- Observable events of a run: console prints, completed file writes, and
closing the PDF document handle. -/
inductive Event where
  | print : String → Event
  | fileWrite : String → Bytes → Event
  | docClose : Event
deriving DecidableEq, Repr

/-- How a piece of Python code finishes: normally with a value, by raising a
(modelled, `Exception`-derived) exception, or by `sys.exit code`. -/
inductive Outcome (α : Type) where
  | ok : α → Outcome α
  | exc : Exc → Outcome α
  | exited : Nat → Outcome α
deriving DecidableEq, Repr

/-- A computation: the ordered list of events it emitted plus its outcome. -/
structure Proc (α : Type) where
  events : List Event
  out : Outcome α
deriving DecidableEq, Repr

def Proc.pure (a : α) : Proc α := ⟨[], .ok a⟩

def Proc.bind (p : Proc α) (f : α → Proc β) : Proc β :=
  match p.out with
  | .ok a => ⟨p.events ++ (f a).events, (f a).out⟩
  | .exc e => ⟨p.events, .exc e⟩
  | .exited n => ⟨p.events, .exited n⟩

instance : Monad Proc where
  pure := Proc.pure
  bind := Proc.bind

/-- `print(s)`. -/
def pr (s : String) : Proc Unit := ⟨[.print s], .ok ()⟩

/-- `sys.exit(n)`: terminal, never runs subsequent code, and is not caught by
`except Exception`. -/
def exitP (n : Nat) : Proc α := ⟨[], .exited n⟩

/-- `raise e` for a modelled (`Exception`-derived) exception. -/
def raiseE (e : Exc) : Proc α := ⟨[], .exc e⟩

/-- Lift a call into an external library that may raise. -/
def liftExc : Except Exc α → Proc α
  | .ok a => Proc.pure a
  | .error e => raiseE e

/-- `try: p except <kinds with canHandle>: handler`.  Catches modelled
exceptions selected by `canHandle`; never catches `sys.exit` (`SystemExit`
derives from `BaseException`, not `Exception`). -/
def tryE (p : Proc α) (canHandle : Exc → Bool) (handler : Exc → Proc α) :
    Proc α :=
  match p.out with
  | .exc e =>
      if canHandle e then
        ⟨p.events ++ (handler e).events, (handler e).out⟩
      else p
  | _ => p

/-- A rendered page's pixel map (`page.get_pixmap(...)`): channel count of its
colorspace, dimensions and raw samples. -/
structure Pixmap where
  n : Nat
  width : Nat
  height : Nat
  samples : Bytes
deriving DecidableEq, Repr

/-- An open PDF document: the pixmaps obtained from its pages in order
(`load_page` + `get_pixmap` per page). -/
structure PdfDoc where
  pixmaps : List Pixmap
deriving DecidableEq, Repr

/-- Oracles for the three external collaborators: the PDF417 decoder
(`PDF417Decoder`: per-image decode and `assemble_data`), zlib, PIL
(`Image.open`, `Image.frombytes`), PyMuPDF (`fitz.open`), and the
filesystem (result of opening/writing the output file). -/
structure Env where
  assemble : List Info → Except Exc Bytes
  decompress : Bytes → Except Exc Bytes
  writeResult : String → Bytes → Option Exc
  openImage : String → Except Exc Image
  decodeImage : Image → Except Exc (List Info)
  openPdf : String → Except Exc PdfDoc
  frombytes : String → Nat → Nat → Bytes → Except Exc Image

/-- Python `str(b)` for a bool. -/
def pyBool (b : Bool) : String := if b then "True" else "False"

/-- `decode_barcode(image, context)` (decode.py lines 10-28): run the decoder
on one image, report the count, return the segment records (empty list when
none were found). -/
def decode_barcode (env : Env) (image : Image) (context : String := "") :
    Proc (List Info) := do
  let info ← liftExc (env.decodeImage image)
  if info.length > 0 then
    pr ("Decoded " ++ toString info.length ++ " barcode(s) from " ++ context)
    Proc.pure info
  else
    pr ("No barcodes found in " ++ context)
    Proc.pure []

/-- `write_file(data, file_name)` (decode.py lines 30-43): try to write all
bytes; on any `Exception` log the error and return normally. -/
def write_file (env : Env) (data : Bytes) (file_name : String) : Proc Unit :=
  tryE
    (match env.writeResult file_name data with
     | none =>
         Proc.bind (⟨[.fileWrite file_name data], .ok ()⟩ : Proc Unit)
           (fun _ => pr ("Successfully wrote data to " ++ file_name))
     | some e => raiseE e)
    (fun _ => true)
    (fun e => pr ("Error writing to file " ++ file_name ++ ": " ++ excMsg e))

/-- The `try` body of `process_output` (decode.py lines 59-66): assemble,
optionally decompress, write. -/
def process_output_body (env : Env) (info_list : List Info)
    (output_file : String) (decode_zlib : Bool) : Proc Unit := do
  let assembled ← liftExc (env.assemble info_list)
  pr ("Decompressing " ++ pyBool decode_zlib)
  if decode_zlib then do
    let decompressed ← liftExc (env.decompress assembled)
    write_file env decompressed output_file
  else
    write_file env assembled output_file

/-- `process_output(info_list, output_file, decode_zlib=True)` (decode.py
lines 45-72): bail out with exit status 1 on an empty record list, otherwise
run the body with `except ValueError` and `except zlib.error` handlers that
log and `sys.exit(1)`. -/
def process_output (env : Env) (info_list : List Info) (output_file : String)
    (decode_zlib : Bool := true) : Proc Unit := do
  if info_list.isEmpty then do
    pr "No barcodes found in any of the input images."
    exitP 1
  else Proc.pure ()
  tryE
    (tryE (process_output_body env info_list output_file decode_zlib)
      (fun e => match e with | .valueError _ => true | _ => false)
      (fun e => do
        pr ("Error: " ++ excMsg e)
        exitP 1))
    (fun e => match e with | .zlibError _ => true | _ => false)
    (fun e => do
      pr ("Error: Decompression error: " ++ excMsg e)
      exitP 1)

/-- The conversion attempt for one page (the inner `try` body, decode.py
lines 90-100): colorspace dispatch on the channel count and
`Image.frombytes`.  The textual form of `pix.colorspace` in the `ValueError`
message is modelled by the channel count. -/
def page_convert (env : Env) (pix : Pixmap) : Proc (String × Image) := do
  let image_mode ←
    if pix.n = 1 then Proc.pure "L"
    else if pix.n = 3 then Proc.pure "RGB"
    else if pix.n = 4 then Proc.pure "CMYK"
    else raiseE (.valueError ("Unsupported colorspace: " ++ toString pix.n))
  let img ← liftExc (env.frombytes image_mode pix.width pix.height
    pix.samples)
  Proc.pure (image_mode, img)

/-- One iteration of `process_pdf`'s page loop (decode.py lines 87-116): the
conversion attempt under an inner `except Exception` handler that logs,
optionally prints a traceback, and exits with status 1; then the per-page
diagnostics and `decode_barcode`. -/
def process_page (env : Env) (pix : Pixmap) (page_number : Nat)
    (pdf_path : String) (verbose : Bool) : Proc (List Info) := do
  let pil_image ← tryE (page_convert env pix)
    (fun _ => true)
    (fun e => do
      pr ("Error during image processing: " ++ excMsg e)
      if verbose then pr "traceback" else Proc.pure ()
      exitP 1)
  pr ("Image width: " ++ toString pix.width ++ ", height: " ++
    toString pix.height)
  pr ("Image format: " ++ pil_image.1)
  decode_barcode env pil_image.2
    ("page " ++ toString page_number ++ " of " ++ pdf_path)

/-- The `for page_number in range(page_count)` loop of `process_pdf`,
accumulating `info_list` (`info_list.extend(decoded_info)` when nonempty is
plain append, since extending with the empty list is a no-op).  Page numbers
are reported 1-based (`page_number + 1`). -/
def pages_fold (env : Env) (pdf_path : String) (verbose : Bool) :
    List Pixmap → Nat → List Info → Proc (List Info)
  | [], _, acc => Proc.pure acc
  | pix :: rest, pageNum, acc => do
      let decoded ← process_page env pix pageNum pdf_path verbose
      pages_fold env pdf_path verbose rest (pageNum + 1) (acc ++ decoded)

/-- The `try` body of `process_pdf` (decode.py lines 84-120): open the
document, loop over pages, close the handle, hand off to `process_output`. -/
def process_pdf_body (env : Env) (pdf_path output_file : String)
    (verbose decode_zlib : Bool) : Proc Unit := do
  let pdf_document ← liftExc (env.openPdf pdf_path)
  let info_list ← pages_fold env pdf_path verbose pdf_document.pixmaps 1 []
  (⟨[.docClose], .ok ()⟩ : Proc Unit)
  process_output env info_list output_file decode_zlib

/-- `process_pdf(pdf_path, output_file, verbose=False, decode_zlib=True)`
(decode.py lines 74-126): the body wrapped in `except Exception` which logs
`Error processing PDF`, optionally prints a traceback, and exits 1.  A
`sys.exit` raised inside the body is `SystemExit`, not an `Exception`, so it
passes through this handler untouched. -/
def process_pdf (env : Env) (pdf_path output_file : String)
    (verbose : Bool := false) (decode_zlib : Bool := true) : Proc Unit :=
  tryE (process_pdf_body env pdf_path output_file verbose decode_zlib)
    (fun _ => true)
    (fun e => do
      pr ("Error processing PDF: " ++ excMsg e)
      if verbose then pr "traceback" else Proc.pure ()
      exitP 1)

/-- One iteration of `process_images`' loop (decode.py lines 139-146):
`Image.open` plus `decode_barcode` under `except Exception`, which logs the
error and moves on, contributing no records for that file. -/
def process_image_one (env : Env) (file_path : String) : Proc (List Info) :=
  tryE
    (do
      let image ← liftExc (env.openImage file_path)
      decode_barcode env image file_path)
    (fun _ => true)
    (fun e => do
      pr ("Error processing image " ++ file_path ++ ": " ++ excMsg e)
      Proc.pure [])

/-- The loop of `process_images`, accumulating `info_list`. -/
def process_images_loop (env : Env) : List String → List Info →
    Proc (List Info)
  | [], acc => Proc.pure acc
  | f :: rest, acc => do
      let decoded ← process_image_one env f
      process_images_loop env rest (acc ++ decoded)

/-- `process_images(image_files)` (decode.py lines 128-147). -/
def process_images (env : Env) (image_files : List String) :
    Proc (List Info) :=
  process_images_loop env image_files []

/-- Parsed command-line arguments (`argparse`, decode.py lines 154-158):
`files` has `nargs=+` (argparse guarantees it nonempty), the output option
(`-o`) defaults to `None`, the verbose (`-v`) and zlib (`-z`) store-true
flags default to `False`. -/
structure Args where
  files : List String
  output : Option String := none
  verbose : Bool := false
  zlib : Bool := false
deriving DecidableEq, Repr

/-- ASCII `str.lower` on one character (exact for the suffix test below). -/
def asciiLower (c : Char) : Char :=
  if 'A' ≤ c ∧ c ≤ 'Z' then Char.ofNat (c.toNat + 32) else c

/-- `files[0].lower().endswith(".pdf")` (decode.py line 172). -/
def is_pdf_path (s : String) : Bool :=
  List.isSuffixOf ".pdf".toList (s.toList.map asciiLower)

/-- `os.path.basename`: the component after the last `/` (posix). -/
def basename (p : String) : String :=
  String.mk ((p.toList.reverse.takeWhile (fun c => c ≠ '/')).reverse)

/-- Index of the last occurrence of `c` in `cs`, if any. -/
def rfindIdx (cs : List Char) (c : Char) : Option Nat :=
  match List.findIdx? (fun x => x = c) cs.reverse with
  | none => none
  | some k => some (cs.length - 1 - k)

/-- `os.path.splitext(p)[0]` (posixpath `_splitext` with `sep = /`,
`extsep = .`): split at the last dot that lies after the last separator,
unless every character between them is a dot (so dotfiles keep their name). -/
def splitext_root (p : String) : String :=
  let cs := p.toList
  let sepIdx : Int :=
    match rfindIdx cs '/' with
    | none => -1
    | some k => (k : Int)
  match rfindIdx cs '.' with
  | none => p
  | some d =>
      if sepIdx < (d : Int) then
        let start : Nat := (sepIdx + 1).toNat
        if ((cs.drop start).take (d - start)).any (fun c => c ≠ '.') then
          String.mk (cs.take d)
        else p
      else p

/-- The default output name (decode.py lines 168-170):
`os.path.splitext(os.path.basename(files[0]))[0] + ".xml"`.  `files` is
nonempty under argparse; `headD` supplies a dummy otherwise. -/
def default_output (files : List String) : String :=
  splitext_root (basename (files.headD "")) ++ ".xml"

/-- Output-path resolution (decode.py lines 167-170): `if not output_file:`
is Python truthiness, so both `None` and the empty string fall back to the
derived default. -/
def resolve_output (output : Option String) (files : List String) : String :=
  match output with
  | none => default_output files
  | some s => if s = "" then default_output files else s

namespace Decode

/-- `main()` after argument parsing (decode.py lines 161-176): resolve the
output path, then dispatch on `len(files) == 1 and
files[0].lower().endswith(".pdf")`. -/
def main (env : Env) (args : Args) : Proc Unit :=
  let output_file := resolve_output args.output args.files
  if args.files.length == 1 && is_pdf_path (args.files.headD "") then
    process_pdf env (args.files.headD "") output_file args.verbose args.zlib
  else do
    let info_list ← process_images env args.files
    process_output env info_list output_file args.zlib

end Decode

/-! ## Generic lemmas about the effect monad -/

@[simp]
theorem bind_eq (p : Proc α) (f : α → Proc β) : p >>= f = Proc.bind p f := rfl

@[simp]
theorem pure_eq (a : α) : (Pure.pure a : Proc α) = Proc.pure a := rfl

@[simp]
theorem liftExc_events (r : Except Exc α) : (liftExc r).events = [] := by
  cases r <;> rfl

theorem bind_events_nil {p : Proc α} {f : α → Proc β} (hp : p.events = [])
    (hf : ∀ a, (f a).events = []) : (Proc.bind p f).events = [] := by
  cases hout : p.out <;> simp [Proc.bind, hout, hp, hf]

theorem notMem_bind_events {ev : Event} {p : Proc α} {f : α → Proc β}
    (hp : ev ∉ p.events) (hf : ∀ a, ev ∉ (f a).events) :
    ev ∉ (Proc.bind p f).events := by
  cases hout : p.out <;> simp [Proc.bind, hout, hp, hf]

theorem notMem_tryE_events {ev : Event} {p : Proc α}
    {canHandle : Exc → Bool} {handler : Exc → Proc α}
    (hp : ev ∉ p.events) (hh : ∀ e, ev ∉ (handler e).events) :
    ev ∉ (tryE p canHandle handler).events := by
  cases hout : p.out <;> simp [tryE, hout, hp, hh]
  case exc e => split <;> simp [hp, hh]

theorem mem_tryE_events {ev : Event} {p : Proc α}
    {canHandle : Exc → Bool} {handler : Exc → Proc α}
    (hp : ev ∈ p.events) : ev ∈ (tryE p canHandle handler).events := by
  cases hout : p.out <;> simp [tryE, hout, hp]
  case exc e => split <;> simp [hp]

/-! ## Concrete environments for exercising the theorems on closed inputs -/

/-- A concrete environment: assembly fails (`ValueError`) exactly on `[9]`,
decompression fails (`zlib.error`) exactly on `[7]`, writing fails exactly to
`"wfail.xml"`, opening fails exactly for `"bad.png"`, the decoder finds one
record on image `3` and none otherwise, and PDFs render to zero pages
(`"empty.pdf"`), one unsupported 2-channel page (`"bad.pdf"`) or one
grayscale page (anything else). -/
def envW : Env where
  assemble := fun l => if l = [9] then .error (.valueError "assembly failed")
    else .ok l
  decompress := fun b => if b = [7] then .error (.zlibError "invalid stream")
    else .ok (b ++ b)
  writeResult := fun f _ => if f = "wfail.xml" then some (.osError "disk full")
    else none
  openImage := fun f => if f = "bad.png" then .error (.osError "cannot open")
    else .ok 3
  decodeImage := fun img => if img = 3 then .ok [4] else .ok []
  openPdf := fun p =>
    if p = "empty.pdf" then .ok ⟨[]⟩
    else if p = "bad.pdf" then .ok ⟨[⟨2, 5, 6, [0]⟩]⟩
    else .ok ⟨[⟨1, 5, 6, [0]⟩]⟩
  frombytes := fun _ _ _ _ => .ok 3

/-! ## Claims -/

/-- C2: with an empty record list, `process_output` prints the report and
terminates with exit status 1; no assembly, decompression or write is
attempted — its trace is that single print, and its behaviour does not
consult the environment (assembler/zlib/filesystem oracles) at all. -/
theorem C2_empty_list_exits (env env2 : Env) (output_file : String)
    (decode_zlib : Bool) :
    process_output env [] output_file decode_zlib
      = ⟨[.print "No barcodes found in any of the input images."], .exited 1⟩
    ∧ process_output env [] output_file decode_zlib
      = process_output env2 [] output_file decode_zlib :=
  ⟨rfl, rfl⟩

/-- C10: a `sys.exit(1)` raised inside `process_pdf`'s try block is a
`SystemExit`, which the enclosing `except Exception` handler does not
intercept: the whole run equals the body's own run — same diagnostics, same
exit status — and the outer `Error processing PDF` message is never added. -/
theorem C10_sysexit_not_caught (env : Env) (pdf_path output_file : String)
    (verbose decode_zlib : Bool) (n : Nat)
    (h : (process_pdf_body env pdf_path output_file verbose decode_zlib).out
      = .exited n) :
    process_pdf env pdf_path output_file verbose decode_zlib
      = process_pdf_body env pdf_path output_file verbose decode_zlib := by
  simp [process_pdf, tryE, h]

/-- Witness for C10: an empty PDF reaches `process_output` with no records,
which exits with status 1 inside the try block; the outer handler adds
nothing. -/
theorem C10_sysexit_not_caught_witness :
    process_pdf envW "empty.pdf" "o.xml" false true
      = process_pdf_body envW "empty.pdf" "o.xml" false true :=
  C10_sysexit_not_caught envW "empty.pdf" "o.xml" false true 1 (by decide)

/-- C1: for a nonempty record list whose assembly succeeds with payload `d`:
with the decompression flag set, the run writes exactly the zlib
decompression of `d`; if `d` is not a valid zlib stream (zlib raises), the
run prints the decompression error and terminates with exit status 1 and no
write occurs; with the flag unset, the run writes `d` unchanged. -/
theorem C1_decompression_contract (env : Env) (info_list : List Info)
    (output_file : String) (d : Bytes)
    (hne : info_list ≠ [])
    (ha : env.assemble info_list = Except.ok d) :
    (∀ p, env.decompress d = Except.ok p →
      env.writeResult output_file p = none →
      process_output env info_list output_file true =
        ⟨[.print "Decompressing True", .fileWrite output_file p,
          .print ("Successfully wrote data to " ++ output_file)], .ok ()⟩)
    ∧ (∀ m, env.decompress d = Except.error (.zlibError m) →
      process_output env info_list output_file true =
        ⟨[.print "Decompressing True",
          .print ("Error: Decompression error: " ++ m)], .exited 1⟩)
    ∧ (env.writeResult output_file d = none →
      process_output env info_list output_file false =
        ⟨[.print "Decompressing False", .fileWrite output_file d,
          .print ("Successfully wrote data to " ++ output_file)], .ok ()⟩) := by
  obtain ⟨i, is, rfl⟩ := List.exists_cons_of_ne_nil hne
  refine ⟨fun p hd hw => ?_, fun m hd => ?_, fun hw => ?_⟩
  · simp [process_output, process_output_body, write_file, tryE, liftExc,
      Proc.bind, Proc.pure, pr, exitP, raiseE, pyBool, excMsg, ha, hd, hw]
  · simp [process_output, process_output_body, write_file, tryE, liftExc,
      Proc.bind, Proc.pure, pr, exitP, raiseE, pyBool, excMsg, ha, hd]
  · simp [process_output, process_output_body, write_file, tryE, liftExc,
      Proc.bind, Proc.pure, pr, exitP, raiseE, pyBool, excMsg, ha, hw]

/-- Witness for C1, flag set and valid stream: assembling `[1]` in `envW`
yields `[1]`, which decompresses to `[1, 1]` and is written. -/
theorem C1_decompression_contract_witness :
    process_output envW [1] "o.xml" true =
      ⟨[.print "Decompressing True", .fileWrite "o.xml" [1, 1],
        .print "Successfully wrote data to o.xml"], .ok ()⟩ :=
  (C1_decompression_contract envW [1] "o.xml" [1] (by decide) rfl).1
    [1, 1] rfl rfl

/-- C8: `write_file` returns normally no matter what the filesystem does —
on a write error it only logs — so a run that reaches the write stage
(nonempty records, assembly succeeded, and, when the flag is set,
decompression succeeded) finishes with outcome `ok`, i.e. exit status 0,
even when the write fails. -/
theorem C8_write_failure_nonfatal (env : Env) (data : Bytes)
    (file_name : String) :
    (write_file env data file_name).out = .ok ()
    ∧ (∀ e, env.writeResult file_name data = some e →
        write_file env data file_name =
          ⟨[.print ("Error writing to file " ++ file_name ++ ": " ++
            excMsg e)], .ok ()⟩)
    ∧ (∀ info_list d p o, info_list ≠ [] →
        env.assemble info_list = Except.ok d →
        env.decompress d = Except.ok p →
        (process_output env info_list o true).out = .ok ())
    ∧ (∀ info_list d o, info_list ≠ [] →
        env.assemble info_list = Except.ok d →
        (process_output env info_list o false).out = .ok ()) := by
  refine ⟨?_, fun e he => ?_, fun info_list d p o hne ha hd => ?_,
    fun info_list d o hne ha => ?_⟩
  · cases hwr : env.writeResult file_name data <;>
      simp [write_file, tryE, Proc.bind, pr, raiseE, hwr]
  · simp [write_file, tryE, Proc.bind, pr, raiseE, he]
  · obtain ⟨i, is, rfl⟩ := List.exists_cons_of_ne_nil hne
    cases hwr : env.writeResult o p <;>
      simp [process_output, process_output_body, write_file, tryE, liftExc,
        Proc.bind, Proc.pure, pr, exitP, raiseE, pyBool, ha, hd, hwr]
  · obtain ⟨i, is, rfl⟩ := List.exists_cons_of_ne_nil hne
    cases hwr : env.writeResult o d <;>
      simp [process_output, process_output_body, write_file, tryE, liftExc,
        Proc.bind, Proc.pure, pr, exitP, raiseE, pyBool, ha, hwr]

/-- Witness for C8: in an environment whose filesystem refuses the write
(`"wfail.xml"`), the run still finishes with outcome `ok`. -/
theorem C8_write_failure_nonfatal_witness :
    (process_output envW [1] "wfail.xml" true).out = .ok () :=
  (C8_write_failure_nonfatal envW [1] "wfail.xml").2.2.1
    [1] [1] [1, 1] "wfail.xml" (by decide) rfl rfl

/-- C9: the `decode_zlib` parameter of `process_output` and `process_pdf`
defaults to `true` when omitted, while the CLI `-z` flag defaults to `false`:
a call of `process_output` without the third argument writes the
decompressed payload, whereas plugging in the parsed-arguments default flag
writes the assembled payload unchanged. -/
theorem C9_default_flag_mismatch (env : Env) (info_list : List Info)
    (output_file : String) (fs : List String) (d p : Bytes)
    (hne : info_list ≠ [])
    (ha : env.assemble info_list = Except.ok d)
    (hd : env.decompress d = Except.ok p)
    (hwp : env.writeResult output_file p = none)
    (hwd : env.writeResult output_file d = none) :
    process_output env info_list output_file
      = process_output env info_list output_file true
    ∧ (∀ path v, process_pdf env path output_file v
        = process_pdf env path output_file v true)
    ∧ ({ files := fs } : Args).zlib = false
    ∧ Event.fileWrite output_file p
        ∈ (process_output env info_list output_file).events
    ∧ Event.fileWrite output_file d
        ∈ (process_output env info_list output_file
            ({ files := fs } : Args).zlib).events := by
  obtain ⟨i, is, rfl⟩ := List.exists_cons_of_ne_nil hne
  refine ⟨rfl, fun path v => rfl, rfl, ?_, ?_⟩
  · simp [process_output, process_output_body, write_file, tryE, liftExc,
      Proc.bind, Proc.pure, pr, exitP, raiseE, pyBool, ha, hd, hwp]
  · simp [process_output, process_output_body, write_file, tryE, liftExc,
      Proc.bind, Proc.pure, pr, exitP, raiseE, pyBool, ha, hwd]

/-- Witness for C9: omitting the argument decompresses (`[1, 1]` is
written), the CLI default does not (`[1]` is written). -/
theorem C9_default_flag_mismatch_witness :
    Event.fileWrite "o.xml" [1, 1] ∈ (process_output envW [1] "o.xml").events
    ∧ Event.fileWrite "o.xml" [1]
        ∈ (process_output envW [1] "o.xml"
            ({ files := ["a.png"] } : Args).zlib).events :=
  ⟨(C9_default_flag_mismatch envW [1] "o.xml" ["a.png"] [1] [1, 1]
      (by decide) rfl rfl rfl rfl).2.2.2.1,
    (C9_default_flag_mismatch envW [1] "o.xml" ["a.png"] [1] [1, 1]
      (by decide) rfl rfl rfl rfl).2.2.2.2⟩

/-- C5: `main` runs PDF mode exactly when a single input path is given and
its lowercased name ends in `.pdf`; in every other case (several paths, or a
single non-PDF path) it decodes every path as a standalone image via
`process_images` and hands the collected records to `process_output`. -/
theorem C5_mode_dispatch (env : Env) (args : Args) :
    (args.files.length = 1 → is_pdf_path (args.files.headD "") = true →
      Decode.main env args =
        process_pdf env (args.files.headD "")
          (resolve_output args.output args.files) args.verbose args.zlib)
    ∧ (args.files.length ≠ 1 ∨ is_pdf_path (args.files.headD "") = false →
      Decode.main env args =
        Proc.bind (process_images env args.files)
          (fun l => process_output env l
            (resolve_output args.output args.files) args.zlib)) := by
  constructor
  · intro h1 h2
    simp only [Decode.main]
    rw [h1, h2]
    rfl
  · intro h
    have hc : (args.files.length == 1 && is_pdf_path (args.files.headD ""))
        = false := by
      rcases h with h | h
      · cases hb : (args.files.length == 1) with
        | true => exact absurd (by simpa using hb) h
        | false => rw [Bool.false_and]
      · rw [h, Bool.and_false]
    simp only [Decode.main]
    rw [hc]
    rfl

/-- Witness for C5: a single `.PDF` path (case-insensitive match) selects PDF
mode; two image paths select image-list mode. -/
theorem C5_mode_dispatch_witness :
    Decode.main envW { files := ["a.PDF"] } =
      process_pdf envW "a.PDF" "a.xml" false false
    ∧ Decode.main envW { files := ["a.png", "b.png"] } =
      Proc.bind (process_images envW ["a.png", "b.png"])
        (fun l => process_output envW l "a.xml" false) :=
  ⟨(C5_mode_dispatch envW { files := ["a.PDF"] }).1 (by decide) (by decide),
    (C5_mode_dispatch envW { files := ["a.png", "b.png"] }).2
      (Or.inl (by decide))⟩

/-- C7 fails as stated: the source guards the explicit output path with
Python truthiness (`if not output_file:`), so the invocation `-o ""` does
not use the given value exactly — the empty string is replaced by the
derived default `scan1.xml`. -/
theorem C7_counterexample :
    resolve_output (some "") ["scan1.png", "scan2.png"] = "scan1.xml"
    ∧ ("scan1.xml" : String) ≠ "" := ⟨by decide, by decide⟩

/-- C7 (amended): without `-o`, or with `-o` set to the empty string, the
output path is the first input's base name with extension `.xml` (e.g.
`scan1.xml` for inputs `scan1.png scan2.png`); any non-empty `-o` value is
used exactly. -/
theorem C7_output_resolution (files : List String) (s : String) :
    resolve_output none files
      = splitext_root (basename (files.headD "")) ++ ".xml"
    ∧ resolve_output (some "") files
      = splitext_root (basename (files.headD "")) ++ ".xml"
    ∧ (s ≠ "" → resolve_output (some s) files = s)
    ∧ resolve_output none ["scan1.png", "scan2.png"] = "scan1.xml" := by
  refine ⟨rfl, rfl, fun hs => ?_, by decide⟩
  simp [resolve_output, hs]

/-- Witness for C7 (amended): a non-empty explicit output path is used
exactly. -/
theorem C7_output_resolution_witness :
    resolve_output (some "out.bin") ["scan1.png"] = "out.bin" :=
  (C7_output_resolution ["scan1.png"] "out.bin").2.2.1 (by decide)

/-- C3: a page whose pixmap has 1, 3 or 4 channels is converted with image
mode `L`, `RGB` or `CMYK` respectively and processing continues into
`decode_barcode`; any other channel count raises the unsupported-colorspace
`ValueError`, which the per-page handler turns into a diagnostic and
`sys.exit(1)` — and a PDF containing such a page makes the whole run
terminate with exit status 1. -/
theorem C3_colorspace_dispatch (env : Env) (pix : Pixmap) (k : Nat)
    (pdf_path o : String) (v z : Bool) :
    (∀ img, pix.n = 1 →
      env.frombytes "L" pix.width pix.height pix.samples = Except.ok img →
      process_page env pix k pdf_path v =
        ⟨[.print ("Image width: " ++ toString pix.width ++ ", height: "
            ++ toString pix.height), .print "Image format: L"]
          ++ (decode_barcode env img
              ("page " ++ toString k ++ " of " ++ pdf_path)).events,
         (decode_barcode env img
            ("page " ++ toString k ++ " of " ++ pdf_path)).out⟩)
    ∧ (∀ img, pix.n = 3 →
      env.frombytes "RGB" pix.width pix.height pix.samples = Except.ok img →
      process_page env pix k pdf_path v =
        ⟨[.print ("Image width: " ++ toString pix.width ++ ", height: "
            ++ toString pix.height), .print "Image format: RGB"]
          ++ (decode_barcode env img
              ("page " ++ toString k ++ " of " ++ pdf_path)).events,
         (decode_barcode env img
            ("page " ++ toString k ++ " of " ++ pdf_path)).out⟩)
    ∧ (∀ img, pix.n = 4 →
      env.frombytes "CMYK" pix.width pix.height pix.samples = Except.ok img →
      process_page env pix k pdf_path v =
        ⟨[.print ("Image width: " ++ toString pix.width ++ ", height: "
            ++ toString pix.height), .print "Image format: CMYK"]
          ++ (decode_barcode env img
              ("page " ++ toString k ++ " of " ++ pdf_path)).events,
         (decode_barcode env img
            ("page " ++ toString k ++ " of " ++ pdf_path)).out⟩)
    ∧ (pix.n ≠ 1 → pix.n ≠ 3 → pix.n ≠ 4 →
      process_page env pix k pdf_path v =
        ⟨.print ("Error during image processing: "
            ++ ("Unsupported colorspace: " ++ toString pix.n))
          :: (if v then [.print "traceback"] else []), .exited 1⟩)
    ∧ (∀ doc rest, pix.n ≠ 1 → pix.n ≠ 3 → pix.n ≠ 4 →
      env.openPdf pdf_path = Except.ok doc → doc.pixmaps = pix :: rest →
      (process_pdf env pdf_path o v z).out = .exited 1) := by
  have hbad : ∀ k', pix.n ≠ 1 → pix.n ≠ 3 → pix.n ≠ 4 →
      process_page env pix k' pdf_path v =
        ⟨.print ("Error during image processing: "
            ++ ("Unsupported colorspace: " ++ toString pix.n))
          :: (if v then [.print "traceback"] else []), .exited 1⟩ := by
    intro k' h1 h3 h4
    cases v <;>
      simp [process_page, page_convert, tryE, liftExc, Proc.bind, Proc.pure,
        pr, exitP, raiseE, excMsg, h1, h3, h4]
  refine ⟨fun img h1 hfb => ?_, fun img h3 hfb => ?_, fun img h4 hfb => ?_,
    hbad k, fun doc rest h1 h3 h4 hopen hpix => ?_⟩
  · simp [process_page, page_convert, tryE, liftExc, Proc.bind, Proc.pure,
      pr, h1, hfb]
  · simp [process_page, page_convert, tryE, liftExc, Proc.bind, Proc.pure,
      pr, h3, hfb]
  · simp [process_page, page_convert, tryE, liftExc, Proc.bind, Proc.pure,
      pr, h4, hfb]
  · simp [process_pdf, process_pdf_body, pages_fold, tryE, liftExc,
      Proc.bind, Proc.pure, hopen, hpix, hbad 1 h1 h3 h4]

/-- Witness for C3: a 2-channel page logs the unsupported-colorspace error
and exits with status 1, and a PDF whose first page has 2 channels makes the
whole run exit with status 1. -/
theorem C3_colorspace_dispatch_witness :
    process_page envW ⟨2, 5, 6, [0]⟩ 1 "bad.pdf" false =
      ⟨[.print ("Error during image processing: "
          ++ ("Unsupported colorspace: " ++ toString (2 : Nat)))], .exited 1⟩
    ∧ (process_pdf envW "bad.pdf" "o.xml" false true).out = .exited 1 :=
  ⟨(C3_colorspace_dispatch envW ⟨2, 5, 6, [0]⟩ 1 "bad.pdf" "o.xml" false
      true).2.2.2.1 (by decide) (by decide) (by decide),
    (C3_colorspace_dispatch envW ⟨2, 5, 6, [0]⟩ 1 "bad.pdf" "o.xml" false
      true).2.2.2.2 ⟨[⟨2, 5, 6, [0]⟩]⟩ [] (by decide) (by decide) (by decide)
      rfl rfl⟩

/-- The records one input image contributes according to the claim's own
words: exactly the decoder's records when both opening and decoding the
image succeed, and nothing when either step raises.  This is the
specification side of C6, compared below against `process_images`. -/
def image_records (env : Env) (f : String) : List Info :=
  match env.openImage f with
  | .error _ => []
  | .ok img =>
      match env.decodeImage img with
      | .error _ => []
      | .ok l => l

theorem process_image_one_out (env : Env) (f : String) :
    (process_image_one env f).out = .ok (image_records env f) := by
  cases ho : env.openImage f with
  | error e =>
      simp [process_image_one, image_records, decode_barcode, tryE, liftExc,
        Proc.bind, Proc.pure, pr, raiseE, ho]
  | ok img =>
      cases hd : env.decodeImage img with
      | error e =>
          simp [process_image_one, image_records, decode_barcode, tryE,
            liftExc, Proc.bind, Proc.pure, pr, raiseE, ho, hd]
      | ok l =>
          cases l with
          | nil =>
              simp [process_image_one, image_records, decode_barcode, tryE,
                liftExc, Proc.bind, Proc.pure, pr, raiseE, ho, hd]
          | cons a as =>
              simp [process_image_one, image_records, decode_barcode, tryE,
                liftExc, Proc.bind, Proc.pure, pr, raiseE, ho, hd]

theorem process_image_one_fail (env : Env) (f : String) (e : Exc)
    (ho : env.openImage f = .error e) :
    process_image_one env f =
      ⟨[.print ("Error processing image " ++ f ++ ": " ++ excMsg e)],
       .ok []⟩ := by
  simp [process_image_one, tryE, liftExc, Proc.bind, Proc.pure, pr, raiseE,
    ho]

theorem process_image_one_decode_fail (env : Env) (f : String) (img : Image)
    (e : Exc) (ho : env.openImage f = .ok img)
    (hd : env.decodeImage img = .error e) :
    process_image_one env f =
      ⟨[.print ("Error processing image " ++ f ++ ": " ++ excMsg e)],
       .ok []⟩ := by
  simp [process_image_one, decode_barcode, tryE, liftExc, Proc.bind,
    Proc.pure, pr, raiseE, ho, hd]

theorem process_images_loop_spec (env : Env) (fs : List String) :
    ∀ acc : List Info,
      (process_images_loop env fs acc).out
        = .ok (acc ++ fs.flatMap (image_records env))
      ∧ (process_images_loop env fs acc).events
        = fs.flatMap (fun f => (process_image_one env f).events) := by
  induction fs with
  | nil => intro acc; simp [process_images_loop, Proc.pure]
  | cons f rest ih =>
      intro acc
      refine ⟨?_, ?_⟩ <;>
        simp [process_images_loop, Proc.bind, process_image_one_out env f,
          (ih (acc ++ image_records env f)).1,
          (ih (acc ++ image_records env f)).2]

/-- A second concrete environment, exercising both per-image failure kinds:
`Image.open` raises for `"bad.png"`, the decoder raises on the image handle
`9` that `"broken.png"` opens to, and every other image opens to handle `3`,
which decodes to one record. -/
def envD : Env where
  assemble := fun l => .ok l
  decompress := fun b => .ok b
  writeResult := fun _ _ => none
  openImage := fun f =>
    if f = "bad.png" then .error (.osError "cannot open")
    else if f = "broken.png" then .ok 9
    else .ok 3
  decodeImage := fun img =>
    if img = 9 then .error (.excOther "decode failure")
    else if img = 3 then .ok [4]
    else .ok []
  openPdf := fun _ => .ok ⟨[]⟩
  frombytes := fun _ _ _ _ => .ok 3

/-- C6: in image-list mode the collected records are exactly those of the
images that open and decode successfully, in order — the loop never raises
or exits, so one bad image cannot stop the run — and every image on which
either opening (`Image.open`) or decoding (the decoder call) raises gets its
error logged. -/
theorem C6_image_errors_isolated (env : Env) (files : List String) :
    (process_images env files).out = .ok (files.flatMap (image_records env))
    ∧ (∀ f e, f ∈ files → env.openImage f = .error e →
      Event.print ("Error processing image " ++ f ++ ": " ++ excMsg e)
        ∈ (process_images env files).events)
    ∧ (∀ f img e, f ∈ files → env.openImage f = .ok img →
      env.decodeImage img = .error e →
      Event.print ("Error processing image " ++ f ++ ": " ++ excMsg e)
        ∈ (process_images env files).events) := by
  have hev : (process_images env files).events
      = files.flatMap (fun g => (process_image_one env g).events) := by
    simpa [process_images] using (process_images_loop_spec env files []).2
  refine ⟨?_, ?_, ?_⟩
  · simpa [process_images] using (process_images_loop_spec env files []).1
  · intro f e hf he
    rw [hev]
    refine List.mem_flatMap.mpr ⟨f, hf, ?_⟩
    rw [process_image_one_fail env f e he]
    simp
  · intro f img e hf ho hd
    rw [hev]
    refine List.mem_flatMap.mpr ⟨f, hf, ?_⟩
    rw [process_image_one_decode_fail env f img e ho hd]
    simp

/-- Witness for C6: with one unreadable image and one image whose decode
raises among three, both errors are logged and the valid image's record is
still collected. -/
theorem C6_image_errors_isolated_witness :
    (process_images envD ["bad.png", "broken.png", "a.png"]).out
      = .ok (["bad.png", "broken.png", "a.png"].flatMap (image_records envD))
    ∧ Event.print ("Error processing image " ++ "bad.png" ++ ": "
        ++ excMsg (.osError "cannot open"))
      ∈ (process_images envD ["bad.png", "broken.png", "a.png"]).events
    ∧ Event.print ("Error processing image " ++ "broken.png" ++ ": "
        ++ excMsg (.excOther "decode failure"))
      ∈ (process_images envD ["bad.png", "broken.png", "a.png"]).events :=
  ⟨(C6_image_errors_isolated envD ["bad.png", "broken.png", "a.png"]).1,
    (C6_image_errors_isolated envD ["bad.png", "broken.png", "a.png"]).2.1
      "bad.png" (.osError "cannot open") (by decide) rfl,
    (C6_image_errors_isolated envD ["bad.png", "broken.png", "a.png"]).2.2
      "broken.png" 9 (.excOther "decode failure") (by decide) rfl rfl⟩

theorem page_convert_events (env : Env) (pix : Pixmap) :
    (page_convert env pix).events = [] := by
  simp only [page_convert, bind_eq]
  split_ifs <;>
    (apply bind_events_nil
     · rfl
     · intro m
       apply bind_events_nil (liftExc_events _)
       intro i
       rfl)

theorem decode_barcode_noClose (env : Env) (img : Image) (ctx : String) :
    Event.docClose ∉ (decode_barcode env img ctx).events := by
  cases hd : env.decodeImage img with
  | error e => simp [decode_barcode, liftExc, Proc.bind, raiseE, hd]
  | ok l =>
      cases l <;>
        simp [decode_barcode, liftExc, Proc.bind, Proc.pure, pr, hd]

theorem process_page_noClose (env : Env) (pix : Pixmap) (k : Nat)
    (path : String) (v : Bool) :
    Event.docClose ∉ (process_page env pix k path v).events := by
  simp only [process_page, bind_eq]
  refine notMem_bind_events ?_ fun im => ?_
  · refine notMem_tryE_events ?_ fun e => ?_
    · rw [page_convert_events]
      simp
    · refine notMem_bind_events (by simp [pr]) fun _ => ?_
      cases v <;> simp [pr, Proc.pure, Proc.bind, exitP]
  · refine notMem_bind_events (by simp [pr]) fun _ => ?_
    exact notMem_bind_events (by simp [pr]) fun _ =>
      decode_barcode_noClose env im.2 _

theorem pages_fold_noClose (env : Env) (path : String) (v : Bool) :
    ∀ (fs : List Pixmap) (k : Nat) (acc : List Info),
      Event.docClose ∉ (pages_fold env path v fs k acc).events := by
  intro fs
  induction fs with
  | nil => intro k acc; simp [pages_fold, Proc.pure]
  | cons pix rest ih =>
      intro k acc
      simp only [pages_fold, bind_eq]
      exact notMem_bind_events (process_page_noClose env pix k path v)
        fun d => ih (k + 1) (acc ++ d)

theorem process_pdf_body_fold_exited (env : Env) (path o : String)
    (v z : Bool) (doc : PdfDoc) (n : Nat)
    (hopen : env.openPdf path = .ok doc)
    (hfold : (pages_fold env path v doc.pixmaps 1 []).out = .exited n) :
    process_pdf_body env path o v z =
      ⟨(pages_fold env path v doc.pixmaps 1 []).events, .exited n⟩ := by
  simp [process_pdf_body, Proc.bind, liftExc, Proc.pure, hopen, hfold]

theorem process_pdf_body_fold_ok (env : Env) (path o : String) (v z : Bool)
    (doc : PdfDoc) (info : List Info)
    (hopen : env.openPdf path = .ok doc)
    (hfold : (pages_fold env path v doc.pixmaps 1 []).out = .ok info) :
    process_pdf_body env path o v z =
      ⟨(pages_fold env path v doc.pixmaps 1 []).events
        ++ Event.docClose :: (process_output env info o z).events,
       (process_output env info o z).out⟩ := by
  simp [process_pdf_body, Proc.bind, liftExc, Proc.pure, hopen, hfold]

/-- C4 fails as stated: a failure path inside the page loop exits the
process via `sys.exit(1)` without ever executing `pdf_document.close()` —
there is no guaranteed-cleanup construct in `process_pdf`.  Concretely, a
one-page PDF with an unsupported 2-channel colorspace terminates with exit
status 1 and no close event in its trace. -/
theorem C4_counterexample :
    (process_pdf envW "bad.pdf" "o.xml" false true).out = .exited 1
    ∧ Event.docClose ∉ (process_pdf envW "bad.pdf" "o.xml" false true).events
    := by
  constructor
  · decide
  · decide

/-- C4 (amended): when every page is processed (the page loop returns
normally), the document handle is closed, and the close precedes output
processing, so it happens even if `process_output` then exits; but on early
termination of the loop via a failure path (`sys.exit` from the per-page
handler) the close call never executes — the handle is only reclaimed by
process termination. -/
theorem C4_close_only_on_success (env : Env) (path o : String) (v z : Bool)
    (doc : PdfDoc) (hopen : env.openPdf path = .ok doc) :
    (∀ info, (pages_fold env path v doc.pixmaps 1 []).out = .ok info →
      Event.docClose ∈ (process_pdf env path o v z).events)
    ∧ (∀ n, (pages_fold env path v doc.pixmaps 1 []).out = .exited n →
      Event.docClose ∉ (process_pdf env path o v z).events) := by
  constructor
  · intro info hfold
    have hb := process_pdf_body_fold_ok env path o v z doc info hopen hfold
    have hm : Event.docClose ∈ (process_pdf_body env path o v z).events := by
      rw [hb]
      simp
    simp only [process_pdf]
    exact mem_tryE_events hm
  · intro n hfold
    have hb := process_pdf_body_fold_exited env path o v z doc n hopen hfold
    have hpd : process_pdf env path o v z = process_pdf_body env path o v z
        := by
      simp [process_pdf, tryE, hb]
    rw [hpd, hb]
    exact pages_fold_noClose env path v doc.pixmaps 1 []

/-- Witness for C4 (amended): a PDF whose single grayscale page decodes
fine produces a close event. -/
theorem C4_close_only_on_success_witness :
    Event.docClose
      ∈ (process_pdf envW "good.pdf" "o.xml" false false).events :=
  (C4_close_only_on_success envW "good.pdf" "o.xml" false false
    ⟨[⟨1, 5, 6, [0]⟩]⟩ rfl).1 [4] (by decide)
